import Mathlib

/-!
Shallow embedding of the `swap_escrow` Anchor program
(src/escrow_program/programs/swap_escrow/src/lib.rs).

The program is a two-party NFT swap escrow with four instructions:
`initialize`, `deposit`, `complete`, `cancel`.  Each instruction first runs
the Anchor account-constraint checks of its `#[derive(Accounts)]` struct and
then the handler body; both layers are translated here, in source order.
Account addresses and mint addresses (`Pubkey`) are modelled as naturals;
the SPL token transfer CPI is modelled by a boolean `transferOk` telling
whether the external transfer succeeded.  A failed instruction leaves the
record unchanged (on Solana the whole transaction is rolled back); in this
embedding each outcome carries the record contents at function exit, so that
the no-partial-mutation property is a theorem about the translated control
flow rather than a modelling assumption.
-/

/-- Account / mint addresses (`Pubkey`), modelled as naturals. -/
abbrev PubKey := Nat

/-- A `[bool; 3]` field of `EscrowAccount`. -/
structure Flags3 where
  f0 : Bool
  f1 : Bool
  f2 : Bool
deriving DecidableEq, Repr

/-- Array read `flags[i]`.  Valid states only index `i < count ≤ 3`. -/
def Flags3.get (f : Flags3) (i : Nat) : Bool :=
  if i = 0 then f.f0 else if i = 1 then f.f1 else f.f2

/-- Array write `flags[i] = b`. -/
def Flags3.set (f : Flags3) (i : Nat) (b : Bool) : Flags3 :=
  if i = 0 then { f with f0 := b }
  else if i = 1 then { f with f1 := b }
  else { f with f2 := b }

/-- The all-false array (Anchor zero-fills a freshly `init`-ed account). -/
def Flags3.zero : Flags3 := ⟨false, false, false⟩

/-- The `for i in 0..count { if !flags[i] { all = false } }` loops of
`deposit` (lines 127-133, 143-149) and `complete` (lines 253-267). -/
def Flags3.allUpTo (f : Flags3) (count : Nat) : Bool :=
  (List.range count).all fun i => f.get i

/-- The `.iter().filter(|&&x| x).count()` of `complete`, lines 276 and 282. -/
def Flags3.countTrue (f : Flags3) : Nat :=
  (if f.f0 then 1 else 0) + (if f.f1 then 1 else 0) + (if f.f2 then 1 else 0)

/-- A `[Pubkey; 3]` field of `EscrowAccount`. -/
structure Mints3 where
  m0 : PubKey
  m1 : PubKey
  m2 : PubKey
deriving DecidableEq, Repr

/-- Array read `mints[i]`. -/
def Mints3.get (m : Mints3) (i : Nat) : PubKey :=
  if i = 0 then m.m0 else if i = 1 then m.m1 else m.m2

/-- The `#[account] EscrowAccount` state, lines 445-465 of the source. -/
structure EscrowAccount where
  initializer : PubKey
  taker : PubKey
  initializer_nft_count : Nat
  taker_nft_count : Nat
  initializer_nft_mints : Mints3
  taker_nft_mints : Mints3
  initializer_nft_deposited : Flags3
  taker_nft_deposited : Flags3
  initializer_nft_collected : Flags3
  taker_nft_collected : Flags3
  initializer_deposited : Bool
  taker_deposited : Bool
  initializer_collected : Bool
  taker_collected : Bool
  is_initialized : Bool
  bump : Nat
  created_at : Int
  timeout_in_seconds : Int
deriving DecidableEq, Repr

/-- The `#[error_code] EscrowError` enum, lines 491-529 of the source. -/
inductive EscrowError where
  | InvalidNftCount
  | EscrowNotInitialized
  | InvalidDepositor
  | InvalidTokenAccount
  | InvalidNftMint
  | InvalidTokenAmount
  | AlreadyDeposited
  | NotAllDeposited
  | OnlyInitializerCanCancel
  | CannotCancelAfterDeposit
  | EscrowTimedOut
  | InvalidNftIndex
  | NftAlreadyDeposited
  | NftAlreadyCollected
  | DepositsIncomplete
  | InvalidCaller
  | InvalidRecipient
  | InvalidCanceller
deriving DecidableEq, Repr

/-- How an instruction can fail: a `require!`/constraint rejection with an
`EscrowError`, or a failure of the SPL token transfer CPI itself. -/
inductive Failure where
  | program (e : EscrowError)
  | transferFailed
deriving DecidableEq, Repr

/-- The `for i in 0..count { mints[i] = remaining_accounts[start + i].key() }`
loops of `initialize` (lines 43-51), unrolled over the fixed `[Pubkey; 3]`
array; the loop runs only after `count ≤ 3` was checked, and entries past
`count` keep the zero-fill of the fresh account. -/
def storeMints (mintAt : Nat → PubKey) (start count : Nat) : Mints3 :=
  { m0 := if 0 < count then mintAt start else 0
    m1 := if 1 < count then mintAt (start + 1) else 0
    m2 := if 2 < count then mintAt (start + 2) else 0 }

/-- The `initialize` instruction, lines 13-62.  `initializer_key` and
`taker_key` are the `initializer` (signer) and `taker` accounts of the
`Initialize` struct; `mintAt i` is the key of `ctx.remaining_accounts[i]`;
`now` is `Clock::get()?.unix_timestamp`.  Anchor `init` zero-fills the fresh
account, so every bookkeeping field not assigned by the handler reads as
zero/false. -/
def initializeEscrow (initializer_key taker_key : PubKey)
    (initializer_nft_count taker_nft_count : Nat) (escrow_bump : Nat)
    (mintAt : Nat → PubKey) (now : Int) : Except EscrowError EscrowAccount :=
  if ¬ (initializer_nft_count > 0 ∧ initializer_nft_count ≤ 3) then
    .error .InvalidNftCount
  else if ¬ (taker_nft_count > 0 ∧ taker_nft_count ≤ 3) then
    .error .InvalidNftCount
  else
    .ok
      { initializer := initializer_key
        taker := taker_key
        initializer_nft_count := initializer_nft_count
        taker_nft_count := taker_nft_count
        initializer_nft_mints := storeMints mintAt 0 initializer_nft_count
        taker_nft_mints := storeMints mintAt initializer_nft_count taker_nft_count
        initializer_nft_deposited := Flags3.zero
        taker_nft_deposited := Flags3.zero
        initializer_nft_collected := Flags3.zero
        taker_nft_collected := Flags3.zero
        initializer_deposited := false
        taker_deposited := false
        initializer_collected := false
        taker_collected := false
        is_initialized := true
        bump := escrow_bump
        created_at := now
        timeout_in_seconds := 86400 }

/-- The caller-supplied accounts and arguments of `deposit`.  The
`vault_account` is constrained to be the associated token account of the
escrow for `mint` (`associated_token::mint = mint`, lines 367-373), so its
mint field necessarily equals `mint_key` and is not a free input. -/
structure DepositInputs where
  is_initializer : Bool
  nft_index : Nat
  depositor : PubKey
  mint_key : PubKey
  token_owner : PubKey
  token_mint : PubKey
  token_amount : Nat
deriving DecidableEq, Repr

/-- The first rejection, if any, of `deposit`: the `Deposit` account
constraints (lines 348-377) followed by the handler `require!`s
(lines 64-106), in source order.  The handler branches on `is_initializer`
for its depositor / already-deposited / index checks; that branch structure
is flattened here into guarded conditions in the same order. -/
def depositCheck (escrow : EscrowAccount) (inp : DepositInputs) :
    Option EscrowError :=
  -- Anchor `Deposit` account constraints, evaluated before the handler body
  if ¬ escrow.is_initialized then some .EscrowNotInitialized
  else if ¬ ((inp.is_initializer ∧ inp.depositor = escrow.initializer) ∨
      (¬ inp.is_initializer ∧ inp.depositor = escrow.taker)) then
    some .InvalidDepositor
  else if ¬ (inp.token_owner = inp.depositor) then some .InvalidTokenAccount
  else if ¬ (inp.token_mint = inp.mint_key) then some .InvalidNftMint
  -- handler body
  else if ¬ escrow.is_initialized then some .EscrowNotInitialized
  else if inp.is_initializer ∧ ¬ (inp.depositor = escrow.initializer) then
    some .InvalidDepositor
  else if inp.is_initializer ∧ escrow.initializer_deposited then
    some .AlreadyDeposited
  else if inp.is_initializer ∧ ¬ (inp.nft_index < escrow.initializer_nft_count) then
    some .InvalidNftIndex
  else if ¬ inp.is_initializer ∧ ¬ (inp.depositor = escrow.taker) then
    some .InvalidDepositor
  else if ¬ inp.is_initializer ∧ escrow.taker_deposited then
    some .AlreadyDeposited
  else if ¬ inp.is_initializer ∧ ¬ (inp.nft_index < escrow.taker_nft_count) then
    some .InvalidNftIndex
  else
    let expected_mint :=
      if inp.is_initializer then escrow.initializer_nft_mints.get inp.nft_index
      else escrow.taker_nft_mints.get inp.nft_index
    if ¬ (inp.token_owner = inp.depositor) then some .InvalidTokenAccount
    else if ¬ (inp.token_mint = expected_mint) then some .InvalidNftMint
    else if ¬ (inp.token_amount = 1) then some .InvalidTokenAmount
    -- vault_account.mint equals mint_key by the associated-token constraint
    else if ¬ (inp.mint_key = expected_mint) then some .InvalidNftMint
    else if inp.is_initializer ∧ escrow.initializer_nft_deposited.get inp.nft_index then
      some .NftAlreadyDeposited
    else if ¬ inp.is_initializer ∧ escrow.taker_nft_deposited.get inp.nft_index then
      some .NftAlreadyDeposited
    else none

/-- The state mutation of `deposit` after the token transfer succeeded,
lines 122-160: set the per-slot flag, then recompute the party's
`*_deposited` flag as the conjunction over the declared slots (the source
only ever assigns it `true`, inside `if all_deposited`). -/
def depositUpdate (escrow : EscrowAccount) (inp : DepositInputs) : EscrowAccount :=
  if inp.is_initializer then
    let dep := escrow.initializer_nft_deposited.set inp.nft_index true
    { escrow with
      initializer_nft_deposited := dep
      initializer_deposited :=
        if dep.allUpTo escrow.initializer_nft_count then true
        else escrow.initializer_deposited }
  else
    let dep := escrow.taker_nft_deposited.set inp.nft_index true
    { escrow with
      taker_nft_deposited := dep
      taker_deposited :=
        if dep.allUpTo escrow.taker_nft_count then true
        else escrow.taker_deposited }

/-- Result of one `deposit` call: the rejection (if any), the escrow record
at exit, and whether the depositor → vault token transfer executed. -/
structure DepositOutcome where
  res : Option Failure
  escrow : EscrowAccount
  transferred : Bool
deriving DecidableEq, Repr

/-- The `deposit` instruction, lines 64-163 plus the `Deposit` account
constraints: all checks come first, then the CPI transfer (line 118, which
may itself fail), then the flag updates. -/
def deposit (escrow : EscrowAccount) (inp : DepositInputs) (transferOk : Bool) :
    DepositOutcome :=
  match depositCheck escrow inp with
  | some e => ⟨some (.program e), escrow, false⟩
  | none =>
    if transferOk then ⟨none, depositUpdate escrow inp, true⟩
    else ⟨some .transferFailed, escrow, false⟩

/-- The caller-supplied accounts and arguments of `complete`.  The
`recipient_token_account` is constrained to be the associated token account
of the caller for `mint` (`associated_token::mint = mint,
associated_token::authority = caller`, lines 401-407), so its mint field
equals `mint_key` and its owner equals `caller`; neither is a free input.
The `initializer` account is address-constrained to the stored initializer
(line 393) and only receives the rent refund. -/
structure CompleteInputs where
  is_initializer : Bool
  nft_index : Nat
  caller : PubKey
  mint_key : PubKey
  vault_mint : PubKey
deriving DecidableEq, Repr

/-- The first rejection, if any, of `complete`: the `Complete` account
constraints (lines 379-411) followed by the handler `require!`s
(lines 165-221), in source order. -/
def completeCheck (escrow : EscrowAccount) (inp : CompleteInputs) :
    Option EscrowError :=
  -- Anchor `Complete` account constraints, evaluated before the handler body
  if ¬ escrow.is_initialized then some .EscrowNotInitialized
  else if ¬ (inp.caller = escrow.initializer ∨ inp.caller = escrow.taker) then
    some .InvalidCaller
  else if ¬ (escrow.initializer_deposited ∧ escrow.taker_deposited) then
    some .DepositsIncomplete
  else if ¬ (inp.vault_mint = inp.mint_key) then some .InvalidNftMint
  -- handler body
  else if ¬ escrow.is_initialized then some .EscrowNotInitialized
  else if ¬ (escrow.initializer_deposited ∧ escrow.taker_deposited) then
    some .DepositsIncomplete
  else if ¬ (inp.caller = escrow.initializer ∨ inp.caller = escrow.taker) then
    some .InvalidCaller
  else if inp.is_initializer ∧ ¬ (inp.nft_index < escrow.taker_nft_count) then
    some .InvalidNftIndex
  else if ¬ inp.is_initializer ∧ ¬ (inp.nft_index < escrow.initializer_nft_count) then
    some .InvalidNftIndex
  else
    let expected_mint :=
      if inp.is_initializer then escrow.taker_nft_mints.get inp.nft_index
      else escrow.initializer_nft_mints.get inp.nft_index
    if ¬ (inp.mint_key = expected_mint) then some .InvalidNftMint
    else if ¬ (inp.vault_mint = expected_mint) then some .InvalidNftMint
    -- recipient_token_account.mint equals mint_key by the ATA constraint
    else if ¬ (inp.mint_key = expected_mint) then some .InvalidNftMint
    else if inp.is_initializer ∧ escrow.taker_nft_collected.get inp.nft_index then
      some .NftAlreadyCollected
    else if ¬ inp.is_initializer ∧ escrow.initializer_nft_collected.get inp.nft_index then
      some .NftAlreadyCollected
    else
      let recipient_expected_owner :=
        if inp.is_initializer then escrow.initializer else escrow.taker
      -- recipient_token_account.owner equals caller by the ATA constraint
      if ¬ (inp.caller = recipient_expected_owner) then some .InvalidRecipient
      else none

/-- The state mutation of `complete` after the vault → recipient transfer
succeeded, lines 245-289: set the per-slot collected flag; if every declared
slot on both sides is collected, close the account (`close_escrow`, rent to
the initializer, data zeroed — modelled as `none`); otherwise update the
per-party `*_collected` flags from the remaining-slot counts. -/
def completeUpdate (escrow : EscrowAccount) (inp : CompleteInputs) :
    Option EscrowAccount :=
  let escrow1 :=
    if inp.is_initializer then
      { escrow with
        taker_nft_collected := escrow.taker_nft_collected.set inp.nft_index true }
    else
      { escrow with
        initializer_nft_collected :=
          escrow.initializer_nft_collected.set inp.nft_index true }
  if escrow1.initializer_nft_collected.allUpTo escrow1.initializer_nft_count ∧
      escrow1.taker_nft_collected.allUpTo escrow1.taker_nft_count then
    none
  else
    let initializer_remaining :=
      escrow1.initializer_nft_count - escrow1.initializer_nft_collected.countTrue
    let escrow2 :=
      if initializer_remaining = 0 then { escrow1 with initializer_collected := true }
      else escrow1
    let taker_remaining :=
      escrow2.taker_nft_count - escrow2.taker_nft_collected.countTrue
    if taker_remaining = 0 then some { escrow2 with taker_collected := true }
    else some escrow2

/-- Result of one `complete` call: the rejection (if any), the escrow record
at exit (`none` once the account is closed), and whether the vault →
recipient transfer executed. -/
structure CompleteOutcome where
  res : Option Failure
  escrow : Option EscrowAccount
  released : Bool
deriving DecidableEq, Repr

/-- The `complete` instruction, lines 165-292 plus the `Complete` account
constraints: all checks first, then the escrow-signed CPI transfer
(line 241, which may itself fail), then the flag updates / account close. -/
def complete (escrow : EscrowAccount) (inp : CompleteInputs) (transferOk : Bool) :
    CompleteOutcome :=
  match completeCheck escrow inp with
  | some e => ⟨some (.program e), some escrow, false⟩
  | none =>
    if transferOk then ⟨none, completeUpdate escrow inp, true⟩
    else ⟨some .transferFailed, some escrow, false⟩

/-- Result of one `cancel` call: the rejection (if any) and the escrow
record at exit (`none` once the account is closed). -/
structure CancelOutcome where
  res : Option EscrowError
  escrow : Option EscrowAccount
deriving DecidableEq, Repr

/-- The `cancel` instruction, lines 294-321 plus the `Cancel` account
constraints (lines 431-443).  Note that the constraint
`!initializer_deposited && !taker_deposited` runs before the handler, so the
handler's `can_cancel || timeout_expired` test is only reached in states it
accepts anyway.  On success `close = initializer` closes the account. -/
def cancel (escrow : EscrowAccount) (canceller : PubKey) (now : Int) :
    CancelOutcome :=
  -- Anchor `Cancel` account constraints, evaluated before the handler body
  if ¬ escrow.is_initialized then ⟨some .EscrowNotInitialized, some escrow⟩
  else if ¬ (canceller = escrow.initializer) then
    ⟨some .InvalidCanceller, some escrow⟩
  else if ¬ (¬ escrow.initializer_deposited ∧ ¬ escrow.taker_deposited) then
    ⟨some .CannotCancelAfterDeposit, some escrow⟩
  -- handler body
  else if ¬ escrow.is_initialized then ⟨some .EscrowNotInitialized, some escrow⟩
  else if ¬ (canceller = escrow.initializer) then
    ⟨some .InvalidCanceller, some escrow⟩
  else
    let can_cancel := ¬ escrow.initializer_deposited ∧ ¬ escrow.taker_deposited
    let timeout_expired := now > escrow.created_at + escrow.timeout_in_seconds
    if ¬ (can_cancel ∨ timeout_expired) then
      ⟨some .CannotCancelAfterDeposit, some escrow⟩
    else ⟨none, none⟩

/-- One record-mutating instruction call with its caller-chosen inputs. -/
inductive Op where
  | dep (inp : DepositInputs) (transferOk : Bool)
  | comp (inp : CompleteInputs) (transferOk : Bool)
  | canc (canceller : PubKey) (now : Int)
deriving DecidableEq, Repr

/-- The escrow record after one instruction: `some` the (possibly updated)
live record, `none` when the instruction closed the account. -/
def applyOp (escrow : EscrowAccount) (op : Op) : Option EscrowAccount :=
  match op with
  | .dep inp transferOk => some (deposit escrow inp transferOk).escrow
  | .comp inp transferOk => (complete escrow inp transferOk).escrow
  | .canc canceller now => (cancel escrow canceller now).escrow

/-! ### Helper lemmas and concrete example records -/

theorem Flags3.get_set_true_mono (f : Flags3) (i j : Nat)
    (h : f.get j = true) : (f.set i true).get j = true := by
  unfold Flags3.get Flags3.set at *
  split_ifs at * <;> simp_all

theorem Flags3.get_set_ne (f : Flags3) (b : Bool) (i j : Nat)
    (hi : i < 3) (hj : j < 3) (hne : i ≠ j) : (f.set i b).get j = f.get j := by
  unfold Flags3.get Flags3.set
  split_ifs <;> simp_all <;> omega

theorem Flags3.allUpTo_iff (f : Flags3) (c : Nat) :
    f.allUpTo c = true ↔ ∀ i, i < c → f.get i = true := by
  simp [Flags3.allUpTo]

/-- A record between parties 1 and 2 with 2 + 1 declared NFTs, fully
deposited on both sides, nothing collected yet. -/
def exRdy : EscrowAccount :=
  { initializer := 1
    taker := 2
    initializer_nft_count := 2
    taker_nft_count := 1
    initializer_nft_mints := ⟨10, 11, 0⟩
    taker_nft_mints := ⟨20, 0, 0⟩
    initializer_nft_deposited := ⟨true, true, false⟩
    taker_nft_deposited := ⟨true, false, false⟩
    initializer_nft_collected := Flags3.zero
    taker_nft_collected := Flags3.zero
    initializer_deposited := true
    taker_deposited := true
    initializer_collected := false
    taker_collected := false
    is_initialized := true
    bump := 255
    created_at := 0
    timeout_in_seconds := 86400 }

/-- Like `exRdy`, but only the first of the initializer's two NFTs has been
deposited, so neither party's fully-deposited flag is set. -/
def exPartial : EscrowAccount :=
  { exRdy with
    initializer_nft_deposited := ⟨true, false, false⟩
    taker_nft_deposited := Flags3.zero
    initializer_deposited := false
    taker_deposited := false }

/-- A freshly initialized record between parties 1 and 2: no deposits, no
collections. -/
def exFresh : EscrowAccount :=
  { exRdy with
    initializer_nft_deposited := Flags3.zero
    taker_nft_deposited := Flags3.zero
    initializer_deposited := false
    taker_deposited := false }

/-- A record whose single-slot initializer side is fully deposited. -/
def exDep1 : EscrowAccount :=
  { exPartial with initializer_nft_count := 1, initializer_deposited := true }

/-- Like `exRdy`, with every slot except the taker's single slot already
collected. -/
def exLast : EscrowAccount :=
  { exRdy with initializer_nft_collected := ⟨true, true, false⟩ }

/-! ### C1 — cancel -/

/-- C1 (corrected): `cancel` succeeds exactly when the record is initialized,
the caller is party A, and NEITHER party's fully-deposited flag is set.  The
per-slot deposit flags play no role (a partial deposit that leaves both
fully-deposited flags false does not block cancellation), and the timeout
never enables cancellation, because the `Cancel` account constraint
`!initializer_deposited && !taker_deposited` runs before the handler's
`can_cancel || timeout_expired` test, which is therefore dead code. -/
theorem cancel_success_iff (st : EscrowAccount) (canceller : PubKey) (now : Int) :
    (cancel st canceller now).res = none ↔
      (st.is_initialized = true ∧ canceller = st.initializer ∧
        st.initializer_deposited = false ∧ st.taker_deposited = false) := by
  unfold cancel
  split_ifs <;> simp_all

/-- C1 counterexample to the claim as stated: on `exRdy` the timeout has
expired at time 100000, yet `cancel` by party A is rejected (the claim says
that after the timeout cancellation succeeds regardless of deposit state);
and on `exPartial` a slot is deposited and the timeout has not expired, yet
`cancel` succeeds (the claim says any single deposited slot blocks
cancellation before the timeout). -/
theorem cancel_claim_cex :
    ((100000 : Int) > exRdy.created_at + exRdy.timeout_in_seconds ∧
      (cancel exRdy 1 100000).res = some .CannotCancelAfterDeposit) ∧
    ((10 : Int) ≤ exPartial.created_at + exPartial.timeout_in_seconds ∧
      exPartial.initializer_nft_deposited.get 0 = true ∧
      (cancel exPartial 1 10).res = none ∧ (cancel exPartial 1 10).escrow = none) := by
  decide

/-! ### Success characterizations of the check chains -/

/-- The declared mint for the slot `deposit` acts on. -/
def depositExpectedMint (st : EscrowAccount) (inp : DepositInputs) : PubKey :=
  if inp.is_initializer then st.initializer_nft_mints.get inp.nft_index
  else st.taker_nft_mints.get inp.nft_index

set_option maxHeartbeats 1000000 in
/-- `depositCheck` passes exactly when every `deposit` precondition holds. -/
theorem depositCheck_none_iff (st : EscrowAccount) (inp : DepositInputs) :
    depositCheck st inp = none ↔
      (st.is_initialized = true ∧
        inp.depositor = (if inp.is_initializer then st.initializer else st.taker) ∧
        (if inp.is_initializer then st.initializer_deposited
          else st.taker_deposited) = false ∧
        inp.nft_index < (if inp.is_initializer then st.initializer_nft_count
          else st.taker_nft_count) ∧
        inp.token_owner = inp.depositor ∧
        inp.token_mint = depositExpectedMint st inp ∧
        inp.token_amount = 1 ∧
        inp.mint_key = depositExpectedMint st inp ∧
        (if inp.is_initializer then st.initializer_nft_deposited.get inp.nft_index
          else st.taker_nft_deposited.get inp.nft_index) = false) := by
  obtain ⟨bI, idx, dep, mk, town, tmint, tamt⟩ := inp
  unfold depositCheck depositExpectedMint
  cases bI <;>
    simp only [Bool.false_eq_true, Bool.true_eq_false, eq_self_iff_true, not_true,
      not_false_eq_true, not_true_eq_false, false_and, true_and, and_true, and_false,
      or_false, false_or, if_false, if_true, ite_true, ite_false] <;>
    split_ifs <;> simp_all <;> (intros; subst_vars; simp_all)

/-- The declared mint for the slot `complete` acts on (the source party is
the taker when `is_initializer` is set, the initializer otherwise). -/
def completeExpectedMint (st : EscrowAccount) (inp : CompleteInputs) : PubKey :=
  if inp.is_initializer then st.taker_nft_mints.get inp.nft_index
  else st.initializer_nft_mints.get inp.nft_index

set_option maxHeartbeats 1000000 in
/-- `completeCheck` passes exactly when every `complete` precondition holds.
The last conjunct forces the caller to be the slot's recipient, because the
recipient token account is the caller's own associated token account. -/
theorem completeCheck_none_iff (st : EscrowAccount) (inp : CompleteInputs) :
    completeCheck st inp = none ↔
      (st.is_initialized = true ∧
        st.initializer_deposited = true ∧ st.taker_deposited = true ∧
        inp.nft_index < (if inp.is_initializer then st.taker_nft_count
          else st.initializer_nft_count) ∧
        inp.mint_key = completeExpectedMint st inp ∧
        inp.vault_mint = inp.mint_key ∧
        (if inp.is_initializer then st.taker_nft_collected.get inp.nft_index
          else st.initializer_nft_collected.get inp.nft_index) = false ∧
        inp.caller = (if inp.is_initializer then st.initializer else st.taker)) := by
  obtain ⟨bI, idx, cl, mk, vm⟩ := inp
  unfold completeCheck completeExpectedMint
  cases bI <;>
    simp only [Bool.false_eq_true, Bool.true_eq_false, eq_self_iff_true, not_true,
      not_false_eq_true, not_true_eq_false, false_and, true_and, and_true, and_false,
      or_false, false_or, if_false, if_true, ite_true, ite_false] <;>
    split_ifs <;> simp_all

/-! ### Outcome shapes -/

theorem deposit_res_none_iff (st : EscrowAccount) (inp : DepositInputs) (tok : Bool) :
    (deposit st inp tok).res = none ↔ (depositCheck st inp = none ∧ tok = true) := by
  cases hc : depositCheck st inp <;> cases tok <;> simp [deposit, hc]

theorem deposit_err_frame (st : EscrowAccount) (inp : DepositInputs) (tok : Bool)
    (h : (deposit st inp tok).res ≠ none) :
    (deposit st inp tok).escrow = st ∧ (deposit st inp tok).transferred = false := by
  cases hc : depositCheck st inp <;> cases tok <;> simp_all [deposit, hc]

theorem deposit_ok_shape (st : EscrowAccount) (inp : DepositInputs) (tok : Bool)
    (h : (deposit st inp tok).res = none) :
    (deposit st inp tok).escrow = depositUpdate st inp ∧
      (deposit st inp tok).transferred = true := by
  cases hc : depositCheck st inp <;> cases tok <;> simp_all [deposit, hc]

theorem complete_res_none_iff (st : EscrowAccount) (inp : CompleteInputs) (tok : Bool) :
    (complete st inp tok).res = none ↔ (completeCheck st inp = none ∧ tok = true) := by
  cases hc : completeCheck st inp <;> cases tok <;> simp [complete, hc]

theorem complete_err_frame (st : EscrowAccount) (inp : CompleteInputs) (tok : Bool)
    (h : (complete st inp tok).res ≠ none) :
    (complete st inp tok).escrow = some st ∧ (complete st inp tok).released = false := by
  cases hc : completeCheck st inp <;> cases tok <;> simp_all [complete, hc]

theorem complete_ok_shape (st : EscrowAccount) (inp : CompleteInputs) (tok : Bool)
    (h : (complete st inp tok).res = none) :
    (complete st inp tok).escrow = completeUpdate st inp ∧
      (complete st inp tok).released = true := by
  cases hc : completeCheck st inp <;> cases tok <;> simp_all [complete, hc]

theorem cancel_err_frame (st : EscrowAccount) (canceller : PubKey) (now : Int)
    (h : (cancel st canceller now).res ≠ none) :
    (cancel st canceller now).escrow = some st := by
  unfold cancel at *
  split_ifs at * <;> simp_all

theorem cancel_ok_closes (st : EscrowAccount) (canceller : PubKey) (now : Int)
    (h : (cancel st canceller now).res = none) :
    (cancel st canceller now).escrow = none := by
  unfold cancel at *
  split_ifs at * <;> simp_all

/-! ### C2 — no release before full mutual commitment -/

/-- C2 (confirmed): when the two fully-deposited flags are not both set,
`complete` rejects, releases nothing from the vault, and leaves the record
unchanged — so no collected flag is set and no asset leaves escrow custody
before both sides have fully deposited. -/
theorem complete_needs_full_deposits (st : EscrowAccount) (inp : CompleteInputs)
    (tok : Bool)
    (h : ¬ (st.initializer_deposited = true ∧ st.taker_deposited = true)) :
    (complete st inp tok).res ≠ none ∧ (complete st inp tok).released = false ∧
      (complete st inp tok).escrow = some st := by
  have hne : (complete st inp tok).res ≠ none := by
    intro hres
    have hc := ((complete_res_none_iff st inp tok).mp hres).1
    have := (completeCheck_none_iff st inp).mp hc
    exact h ⟨this.2.1, this.2.2.1⟩
  exact ⟨hne, (complete_err_frame st inp tok hne).2, (complete_err_frame st inp tok hne).1⟩

/-- C2 witness: a concrete record with the taker side not fully deposited. -/
theorem complete_needs_full_deposits_wit :
    (complete exPartial ⟨true, 0, 1, 20, 20⟩ true).res ≠ none ∧
      (complete exPartial ⟨true, 0, 1, 20, 20⟩ true).released = false ∧
      (complete exPartial ⟨true, 0, 1, 20, 20⟩ true).escrow = some exPartial :=
  complete_needs_full_deposits exPartial ⟨true, 0, 1, 20, 20⟩ true (by decide)

/-! ### C3 — who can complete which slot -/

/-- C3 (corrected): a `complete` call succeeds exactly when the record is
live and fully deposited on both sides, the slot index is valid for the
source party, the supplied mint accounts match the slot's declared mint, the
slot is still uncollected, and the caller IS the slot's recipient (the
counterparty of the source party): the recipient token account is the
caller's own associated token account, so the handler's recipient-owner
check forces `caller = recipient`.  Success depends only on that slot's own
collected flag, so distinct slots can be completed in any order; the asset
always goes to the counterparty of the slot's source party, but only that
counterparty — not either participant — can drive the slot's completion. -/
theorem complete_success_iff (st : EscrowAccount) (inp : CompleteInputs) (tok : Bool) :
    (complete st inp tok).res = none ↔
      (st.is_initialized = true ∧
        st.initializer_deposited = true ∧ st.taker_deposited = true ∧
        inp.nft_index < (if inp.is_initializer then st.taker_nft_count
          else st.initializer_nft_count) ∧
        inp.mint_key = completeExpectedMint st inp ∧
        inp.vault_mint = inp.mint_key ∧
        (if inp.is_initializer then st.taker_nft_collected.get inp.nft_index
          else st.initializer_nft_collected.get inp.nft_index) = false ∧
        inp.caller = (if inp.is_initializer then st.initializer else st.taker) ∧
        tok = true) := by
  rw [complete_res_none_iff, completeCheck_none_iff]
  tauto

/-- C3 counterexample to the claim as stated: `exRdy` is live and fully
deposited and the taker's slot 0 is uncollected, but a `complete` call by
the taker (key 2) for that slot, with the correct mint accounts, is rejected
with `InvalidRecipient` and moves nothing — the slot's recipient is the
initializer, and only the recipient can complete the slot. -/
theorem complete_either_party_cex :
    exRdy.is_initialized = true ∧ exRdy.initializer_deposited = true ∧
      exRdy.taker_deposited = true ∧ exRdy.taker_nft_collected.get 0 = false ∧
      exRdy.taker = 2 ∧
      (complete exRdy ⟨true, 0, 2, 20, 20⟩ true).res =
        some (.program .InvalidRecipient) ∧
      (complete exRdy ⟨true, 0, 2, 20, 20⟩ true).released = false := by
  decide

/-! ### C4 — dissolution -/

/-- C4 (corrected): a successful `complete` closes the record exactly when,
after setting the slot's flag, every declared slot on both sides is
collected; but dissolution does not imply full collection, because a
successful `cancel` also closes the record (with no slot collected); and any
operation against a record whose data has been zeroed (`is_initialized`
false) fails with the not-initialized error. -/
theorem dissolution_spec :
    (∀ (st : EscrowAccount) (inp : CompleteInputs) (tok : Bool),
      (complete st inp tok).res = none →
        ((complete st inp tok).escrow = none ↔
          ((if inp.is_initializer then st.initializer_nft_collected
              else st.initializer_nft_collected.set inp.nft_index true).allUpTo
              st.initializer_nft_count = true ∧
            (if inp.is_initializer then st.taker_nft_collected.set inp.nft_index true
              else st.taker_nft_collected).allUpTo st.taker_nft_count = true))) ∧
    (∀ (st : EscrowAccount) (canceller : PubKey) (now : Int),
      (cancel st canceller now).res = none → (cancel st canceller now).escrow = none) ∧
    (∀ (st : EscrowAccount), st.is_initialized = false →
      ∀ (dinp : DepositInputs) (dtok : Bool) (cinp : CompleteInputs) (ctok : Bool)
        (canceller : PubKey) (now : Int),
        (deposit st dinp dtok).res = some (.program .EscrowNotInitialized) ∧
          (complete st cinp ctok).res = some (.program .EscrowNotInitialized) ∧
          (cancel st canceller now).res = some .EscrowNotInitialized) := by
  refine ⟨?_, ?_, ?_⟩
  · intro st inp tok h
    obtain ⟨he, _⟩ := complete_ok_shape st inp tok h
    rw [he]
    unfold completeUpdate
    by_cases hI : inp.is_initializer <;>
      simp only [hI, if_true, if_false, ite_true, ite_false] <;>
      split_ifs <;> simp_all
  · intro st canceller now h
    exact cancel_ok_closes st canceller now h
  · intro st h dinp dtok cinp ctok canceller now
    have hd : depositCheck st dinp = some .EscrowNotInitialized := by
      unfold depositCheck
      simp [h]
    have hc : completeCheck st cinp = some .EscrowNotInitialized := by
      unfold completeCheck
      simp [h]
    refine ⟨by simp [deposit, hd], by simp [complete, hc], ?_⟩
    unfold cancel
    simp [h]

/-- C4 witness: completing the last uncollected slot of `exLast` dissolves
the record; a successful `cancel` of the fresh record dissolves it; and a
zeroed record rejects all three operations with the not-initialized error. -/
theorem dissolution_spec_wit :
    (complete exLast ⟨true, 0, 1, 20, 20⟩ true).escrow = none ∧
      (cancel exFresh 1 0).escrow = none ∧
      (deposit { exFresh with is_initialized := false }
        ⟨true, 0, 1, 10, 1, 10, 1⟩ true).res = some (.program .EscrowNotInitialized) :=
  ⟨(dissolution_spec.1 exLast ⟨true, 0, 1, 20, 20⟩ true (by decide)).mpr (by decide),
    dissolution_spec.2.1 exFresh 1 0 (by decide),
    (dissolution_spec.2.2 { exFresh with is_initialized := false } (by decide)
      ⟨true, 0, 1, 10, 1, 10, 1⟩ true ⟨true, 0, 1, 20, 20⟩ true 1 0).1⟩

/-- C4 counterexample to the claim as stated: the fresh record dissolves via
`cancel` although none of its declared slots is collected. -/
theorem cancel_dissolves_uncollected_cex :
    (cancel exFresh 1 0).res = none ∧ (cancel exFresh 1 0).escrow = none ∧
      exFresh.initializer_nft_collected.get 0 = false ∧
      exFresh.taker_nft_collected.get 0 = false ∧
      0 < exFresh.initializer_nft_count ∧ 0 < exFresh.taker_nft_count := by
  decide

/-! ### C5 — monotonicity of the per-slot flags -/

/-- Shorthand for the four per-slot flag arrays being pointwise monotone
between two records. -/
def FlagsLe (st st' : EscrowAccount) : Prop :=
  (∀ i, st.initializer_nft_deposited.get i = true →
    st'.initializer_nft_deposited.get i = true) ∧
  (∀ i, st.taker_nft_deposited.get i = true →
    st'.taker_nft_deposited.get i = true) ∧
  (∀ i, st.initializer_nft_collected.get i = true →
    st'.initializer_nft_collected.get i = true) ∧
  (∀ i, st.taker_nft_collected.get i = true →
    st'.taker_nft_collected.get i = true)

theorem flagsLe_refl (st : EscrowAccount) : FlagsLe st st :=
  ⟨fun _ h => h, fun _ h => h, fun _ h => h, fun _ h => h⟩

theorem flagsLe_trans {a b c : EscrowAccount} (h1 : FlagsLe a b) (h2 : FlagsLe b c) :
    FlagsLe a c :=
  ⟨fun i h => h2.1 i (h1.1 i h),
    fun i h => h2.2.1 i (h1.2.1 i h),
    fun i h => h2.2.2.1 i (h1.2.2.1 i h),
    fun i h => h2.2.2.2 i (h1.2.2.2 i h)⟩

theorem applyOp_flagsLe (st : EscrowAccount) (op : Op) (st' : EscrowAccount)
    (h : applyOp st op = some st') : FlagsLe st st' := by
  cases op with
  | dep inp tok =>
    simp only [applyOp, Option.some.injEq] at h
    by_cases hr : (deposit st inp tok).res = none
    · obtain ⟨he, _⟩ := deposit_ok_shape st inp tok hr
      rw [he] at h
      subst h
      unfold depositUpdate
      by_cases hI : inp.is_initializer <;>
        simp only [hI, if_true, if_false, ite_true, ite_false] <;>
        exact ⟨fun i hi => by first
            | exact Flags3.get_set_true_mono _ _ _ hi
            | exact hi,
          fun i hi => by first
            | exact Flags3.get_set_true_mono _ _ _ hi
            | exact hi,
          fun i hi => hi, fun i hi => hi⟩
    · obtain ⟨he, _⟩ := deposit_err_frame st inp tok hr
      rw [he] at h
      subst h
      exact flagsLe_refl st
  | comp inp tok =>
    simp only [applyOp] at h
    by_cases hr : (complete st inp tok).res = none
    · obtain ⟨he, _⟩ := complete_ok_shape st inp tok hr
      rw [he] at h
      unfold completeUpdate at h
      by_cases hI : inp.is_initializer <;>
        simp only [hI, if_true, if_false, ite_true, ite_false] at h <;>
        split_ifs at h <;>
        simp only [Option.some.injEq] at h <;>
        subst h <;>
        refine ⟨fun i hi => hi, fun i hi => hi, ?_, ?_⟩ <;>
        intro i hi <;>
        first
          | exact Flags3.get_set_true_mono _ _ _ hi
          | exact hi
    · obtain ⟨he, _⟩ := complete_err_frame st inp tok hr
      rw [he] at h
      simp only [Option.some.injEq] at h
      subst h
      exact flagsLe_refl st
  | canc canceller now =>
    simp only [applyOp] at h
    by_cases hr : (cancel st canceller now).res = none
    · rw [cancel_ok_closes st canceller now hr] at h
      cases h
    · rw [cancel_err_frame st canceller now hr] at h
      simp only [Option.some.injEq] at h
      subst h
      exact flagsLe_refl st

/-- A sequence of instruction calls, applied while the record is live; once
an instruction closes the record, no record remains for later calls. -/
def applyOps (st : EscrowAccount) : List Op → Option EscrowAccount
  | [] => some st
  | op :: rest =>
    match applyOp st op with
    | none => none
    | some st1 => applyOps st1 rest

/-- C5 (confirmed): across any sequence of operations that keeps the record
live, every per-slot `deposited` and `collected` flag is monotone — it never
transitions from true back to false (and hence transitions false→true at
most once, since once set it stays set). -/
theorem slot_flags_monotone (ops : List Op) (st st' : EscrowAccount)
    (h : applyOps st ops = some st') : FlagsLe st st' := by
  induction ops generalizing st with
  | nil =>
    simp only [applyOps, Option.some.injEq] at h
    subst h
    exact flagsLe_refl st
  | cons op rest ih =>
    unfold applyOps at h
    cases h1 : applyOp st op with
    | none => rw [h1] at h; cases h
    | some st1 =>
      rw [h1] at h
      exact flagsLe_trans (applyOp_flagsLe st op st1 h1) (ih st1 h)

/-- C5 witness: depositing the initializer's second NFT into `exPartial`
keeps the already-set flag of slot 0 set. -/
theorem slot_flags_monotone_wit :
    (depositUpdate exPartial ⟨true, 1, 1, 11, 1, 11, 1⟩).initializer_nft_deposited.get 0
      = true :=
  (slot_flags_monotone [.dep ⟨true, 1, 1, 11, 1, 11, 1⟩ true] exPartial
    (depositUpdate exPartial ⟨true, 1, 1, 11, 1, 11, 1⟩) (by decide)).1 0 (by decide)

/-! ### C6 — slot addressability -/

/-- A flags array with the entries at positions `≥ c` cleared. -/
def maskFlags (f : Flags3) (c : Nat) : Flags3 :=
  ⟨f.f0 && decide (0 < c), f.f1 && decide (1 < c), f.f2 && decide (2 < c)⟩

/-- A mints array with the entries at positions `≥ c` cleared. -/
def maskMints (m : Mints3) (c : Nat) : Mints3 :=
  ⟨if 0 < c then m.m0 else 0, if 1 < c then m.m1 else 0, if 2 < c then m.m2 else 0⟩

/-- The record with every slot entry beyond the declared counts cleared. -/
def maskSlots (st : EscrowAccount) : EscrowAccount :=
  { st with
    initializer_nft_mints := maskMints st.initializer_nft_mints st.initializer_nft_count
    taker_nft_mints := maskMints st.taker_nft_mints st.taker_nft_count
    initializer_nft_deposited := maskFlags st.initializer_nft_deposited st.initializer_nft_count
    taker_nft_deposited := maskFlags st.taker_nft_deposited st.taker_nft_count
    initializer_nft_collected := maskFlags st.initializer_nft_collected st.initializer_nft_count
    taker_nft_collected := maskFlags st.taker_nft_collected st.taker_nft_count }

theorem maskFlags_get_lt (f : Flags3) (c i : Nat) (h : i < c) :
    (maskFlags f c).get i = f.get i := by
  unfold maskFlags Flags3.get
  split_ifs with h0 h1
  · have hc : 0 < c := by omega
    simp [hc]
  · have hc : 1 < c := by omega
    simp [hc]
  · have hc : 2 < c := by omega
    simp [hc]

theorem maskMints_get_lt (m : Mints3) (c i : Nat) (h : i < c) :
    (maskMints m c).get i = m.get i := by
  rcases i with _ | _ | _ | i
  · have hc : 0 < c := by omega
    simp [maskMints, Mints3.get, hc]
  · have hc : 1 < c := by omega
    simp [maskMints, Mints3.get, hc]
  · have hc : 2 < c := by omega
    simp [maskMints, Mints3.get, hc]
  · have hc : 2 < c := by omega
    simp [maskMints, Mints3.get, hc]

theorem depositCheck_mask (st : EscrowAccount) (inp : DepositInputs) :
    depositCheck (maskSlots st) inp = depositCheck st inp := by
  obtain ⟨bI, idx, dep, mk, town, tmint, tamt⟩ := inp
  unfold depositCheck maskSlots
  dsimp only
  cases bI
  · by_cases hidx : idx < st.taker_nft_count
    · simp [maskFlags_get_lt _ _ _ hidx, maskMints_get_lt _ _ _ hidx]
    · simp [hidx]
  · by_cases hidx : idx < st.initializer_nft_count
    · simp [maskFlags_get_lt _ _ _ hidx, maskMints_get_lt _ _ _ hidx]
    · simp [hidx]

theorem completeCheck_mask (st : EscrowAccount) (inp : CompleteInputs) :
    completeCheck (maskSlots st) inp = completeCheck st inp := by
  obtain ⟨bI, idx, cl, mk, vm⟩ := inp
  unfold completeCheck maskSlots
  dsimp only
  cases bI
  · by_cases hidx : idx < st.initializer_nft_count
    · simp [maskFlags_get_lt _ _ _ hidx, maskMints_get_lt _ _ _ hidx]
    · simp [hidx]
  · by_cases hidx : idx < st.taker_nft_count
    · simp [maskFlags_get_lt _ _ _ hidx, maskMints_get_lt _ _ _ hidx]
    · simp [hidx]

/-- Out-of-range slot entries (and the mint arrays and counts) are never
written by any operation that leaves the record live. -/
theorem applyOp_frame (st : EscrowAccount) (op : Op) (st' : EscrowAccount)
    (h : applyOp st op = some st') :
    st'.initializer_nft_count = st.initializer_nft_count ∧
      st'.taker_nft_count = st.taker_nft_count ∧
      st'.initializer_nft_mints = st.initializer_nft_mints ∧
      st'.taker_nft_mints = st.taker_nft_mints ∧
      (∀ j, j < 3 → st.initializer_nft_count ≤ j →
        st'.initializer_nft_deposited.get j = st.initializer_nft_deposited.get j ∧
          st'.initializer_nft_collected.get j = st.initializer_nft_collected.get j) ∧
      (∀ j, j < 3 → st.taker_nft_count ≤ j →
        st'.taker_nft_deposited.get j = st.taker_nft_deposited.get j ∧
          st'.taker_nft_collected.get j = st.taker_nft_collected.get j) := by
  cases op with
  | dep inp tok =>
    simp only [applyOp, Option.some.injEq] at h
    by_cases hr : (deposit st inp tok).res = none
    · have hidx := ((depositCheck_none_iff st inp).mp
        ((deposit_res_none_iff st inp tok).mp hr).1).2.2.2.1
      obtain ⟨he, _⟩ := deposit_ok_shape st inp tok hr
      rw [he] at h
      subst h
      unfold depositUpdate
      by_cases hI : inp.is_initializer <;>
        [rw [if_pos hI] at hidx; rw [if_neg hI] at hidx] <;>
        [rw [if_pos hI]; rw [if_neg hI]] <;>
        refine ⟨rfl, rfl, rfl, rfl, ?_, ?_⟩ <;>
        intro j hj3 hcj <;>
        constructor <;>
        first
          | rfl
          | exact Flags3.get_set_ne _ _ _ _ (by omega) hj3 (by omega)
    · obtain ⟨he, _⟩ := deposit_err_frame st inp tok hr
      rw [he] at h
      subst h
      exact ⟨rfl, rfl, rfl, rfl, fun j _ _ => ⟨rfl, rfl⟩, fun j _ _ => ⟨rfl, rfl⟩⟩
  | comp inp tok =>
    simp only [applyOp] at h
    by_cases hr : (complete st inp tok).res = none
    · have hidx := ((completeCheck_none_iff st inp).mp
        ((complete_res_none_iff st inp tok).mp hr).1).2.2.2.1
      obtain ⟨he, _⟩ := complete_ok_shape st inp tok hr
      rw [he] at h
      unfold completeUpdate at h
      by_cases hI : inp.is_initializer <;>
        simp only [hI, Bool.false_eq_true, Bool.true_eq_false, eq_self_iff_true,
          if_true, if_false, ite_true, ite_false] at hidx h <;>
        split_ifs at h <;>
        first
          | exact Option.noConfusion h
          | (simp only [Option.some.injEq] at h; subst h;
             refine ⟨rfl, rfl, rfl, rfl, ?_, ?_⟩ <;>
               intro j hj3 hcj <;>
               constructor <;>
               first
                 | rfl
                 | exact Flags3.get_set_ne _ _ _ _ (by omega) hj3 (by omega))
    · obtain ⟨he, _⟩ := complete_err_frame st inp tok hr
      rw [he] at h
      simp only [Option.some.injEq] at h
      subst h
      exact ⟨rfl, rfl, rfl, rfl, fun j _ _ => ⟨rfl, rfl⟩, fun j _ _ => ⟨rfl, rfl⟩⟩
  | canc canceller now =>
    simp only [applyOp] at h
    by_cases hr : (cancel st canceller now).res = none
    · rw [cancel_ok_closes st canceller now hr] at h
      cases h
    · rw [cancel_err_frame st canceller now hr] at h
      simp only [Option.some.injEq] at h
      subst h
      exact ⟨rfl, rfl, rfl, rfl, fun j _ _ => ⟨rfl, rfl⟩, fun j _ _ => ⟨rfl, rfl⟩⟩

set_option maxHeartbeats 4000000 in
/-- C6 (confirmed): only the declared `count` slots per side are
addressable.  An out-of-range `slot_index` can never make `deposit` or
`complete` succeed; once the checks that precede the index check pass, it is
rejected with exactly `InvalidNftIndex`; no live-record operation ever
writes a slot entry beyond the declared counts (nor the mint arrays or
counts); and no operation's accept/reject result reads slot entries beyond
the declared counts (clearing them with `maskSlots` never changes the
result). -/
theorem slot_index_bounds :
    (∀ (st : EscrowAccount) (inp : DepositInputs) (tok : Bool),
      (if inp.is_initializer then st.initializer_nft_count
        else st.taker_nft_count) ≤ inp.nft_index →
      (deposit st inp tok).res ≠ none) ∧
    (∀ (st : EscrowAccount) (inp : CompleteInputs) (tok : Bool),
      (if inp.is_initializer then st.taker_nft_count
        else st.initializer_nft_count) ≤ inp.nft_index →
      (complete st inp tok).res ≠ none) ∧
    (∀ (st : EscrowAccount) (inp : DepositInputs) (tok : Bool),
      st.is_initialized = true →
      inp.depositor = (if inp.is_initializer then st.initializer else st.taker) →
      inp.token_owner = inp.depositor →
      inp.token_mint = inp.mint_key →
      (if inp.is_initializer then st.initializer_deposited
        else st.taker_deposited) = false →
      (if inp.is_initializer then st.initializer_nft_count
        else st.taker_nft_count) ≤ inp.nft_index →
      (deposit st inp tok).res = some (.program .InvalidNftIndex)) ∧
    (∀ (st : EscrowAccount) (inp : CompleteInputs) (tok : Bool),
      st.is_initialized = true →
      (inp.caller = st.initializer ∨ inp.caller = st.taker) →
      st.initializer_deposited = true → st.taker_deposited = true →
      inp.vault_mint = inp.mint_key →
      (if inp.is_initializer then st.taker_nft_count
        else st.initializer_nft_count) ≤ inp.nft_index →
      (complete st inp tok).res = some (.program .InvalidNftIndex)) ∧
    (∀ (st : EscrowAccount) (op : Op) (st' : EscrowAccount),
      applyOp st op = some st' →
      st'.initializer_nft_mints = st.initializer_nft_mints ∧
        st'.taker_nft_mints = st.taker_nft_mints ∧
        (∀ j, j < 3 → st.initializer_nft_count ≤ j →
          st'.initializer_nft_deposited.get j = st.initializer_nft_deposited.get j ∧
            st'.initializer_nft_collected.get j = st.initializer_nft_collected.get j) ∧
        (∀ j, j < 3 → st.taker_nft_count ≤ j →
          st'.taker_nft_deposited.get j = st.taker_nft_deposited.get j ∧
            st'.taker_nft_collected.get j = st.taker_nft_collected.get j)) ∧
    (∀ (st : EscrowAccount) (inp : DepositInputs) (tok : Bool),
      (deposit (maskSlots st) inp tok).res = (deposit st inp tok).res) ∧
    (∀ (st : EscrowAccount) (inp : CompleteInputs) (tok : Bool),
      (complete (maskSlots st) inp tok).res = (complete st inp tok).res) ∧
    (∀ (st : EscrowAccount) (canceller : PubKey) (now : Int),
      (cancel (maskSlots st) canceller now).res = (cancel st canceller now).res) := by
  refine ⟨?_, ?_, ?_, ?_, ?_, ?_, ?_, ?_⟩
  · intro st inp tok hle hres
    have := ((depositCheck_none_iff st inp).mp
      ((deposit_res_none_iff st inp tok).mp hres).1).2.2.2.1
    omega
  · intro st inp tok hle hres
    have := ((completeCheck_none_iff st inp).mp
      ((complete_res_none_iff st inp tok).mp hres).1).2.2.2.1
    omega
  · intro st inp tok h1 h2 h3 h4 h5 h6
    have hck : depositCheck st inp = some .InvalidNftIndex := by
      unfold depositCheck
      by_cases hI : inp.is_initializer <;>
        simp only [hI, Bool.false_eq_true, Bool.true_eq_false, eq_self_iff_true,
          not_true, not_false_eq_true, not_true_eq_false, false_and, true_and,
          and_true, and_false, or_false, false_or, if_true, if_false, ite_true,
          ite_false] at h2 h5 h6 ⊢ <;>
        split_ifs <;> simp_all <;> omega
    simp [deposit, hck]
  · intro st inp tok h1 h2 h3 h4 h5 h6
    have hck : completeCheck st inp = some .InvalidNftIndex := by
      unfold completeCheck
      by_cases hI : inp.is_initializer <;>
        simp only [hI, Bool.false_eq_true, Bool.true_eq_false, eq_self_iff_true,
          not_true, not_false_eq_true, not_true_eq_false, false_and, true_and,
          and_true, and_false, or_false, false_or, if_true, if_false, ite_true,
          ite_false] at h6 ⊢ <;>
        split_ifs <;> simp_all <;> omega
    simp [complete, hck]
  · intro st op st' h
    obtain ⟨_, _, hm1, hm2, hf1, hf2⟩ := applyOp_frame st op st' h
    exact ⟨hm1, hm2, hf1, hf2⟩
  · intro st inp tok
    unfold deposit
    rw [depositCheck_mask]
    cases depositCheck st inp <;> cases tok <;> rfl
  · intro st inp tok
    unfold complete
    rw [completeCheck_mask]
    cases completeCheck st inp <;> cases tok <;> rfl
  · intro st canceller now
    unfold cancel maskSlots
    dsimp only
    split_ifs <;> rfl

/-- C6 witness: slot index 2 on a 2-slot side (and index 1 on a 1-slot
side) is rejected with `InvalidNftIndex`; a successful deposit does not
touch the mint arrays; masking out-of-range entries leaves the result of a
valid deposit unchanged. -/
theorem slot_index_bounds_wit :
    (deposit exFresh ⟨true, 2, 1, 10, 1, 10, 1⟩ true).res ≠ none ∧
      (complete exRdy ⟨true, 1, 1, 20, 20⟩ true).res ≠ none ∧
      (deposit exFresh ⟨true, 2, 1, 10, 1, 10, 1⟩ true).res =
        some (.program .InvalidNftIndex) ∧
      (complete exRdy ⟨true, 1, 1, 20, 20⟩ true).res =
        some (.program .InvalidNftIndex) ∧
      (depositUpdate exPartial ⟨true, 1, 1, 11, 1, 11, 1⟩).taker_nft_mints =
        exPartial.taker_nft_mints ∧
      (deposit (maskSlots exFresh) ⟨true, 0, 1, 10, 1, 10, 1⟩ true).res =
        (deposit exFresh ⟨true, 0, 1, 10, 1, 10, 1⟩ true).res :=
  ⟨slot_index_bounds.1 exFresh ⟨true, 2, 1, 10, 1, 10, 1⟩ true (by decide),
    slot_index_bounds.2.1 exRdy ⟨true, 1, 1, 20, 20⟩ true (by decide),
    slot_index_bounds.2.2.1 exFresh ⟨true, 2, 1, 10, 1, 10, 1⟩ true (by decide)
      (by decide) (by decide) (by decide) (by decide) (by decide),
    slot_index_bounds.2.2.2.1 exRdy ⟨true, 1, 1, 20, 20⟩ true (by decide)
      (by decide) (by decide) (by decide) (by decide) (by decide),
    (slot_index_bounds.2.2.2.2.1 exPartial (.dep ⟨true, 1, 1, 11, 1, 11, 1⟩ true)
      (depositUpdate exPartial ⟨true, 1, 1, 11, 1, 11, 1⟩) (by decide)).2.1,
    slot_index_bounds.2.2.2.2.2.1 exFresh ⟨true, 0, 1, 10, 1, 10, 1⟩ true⟩

/-! ### C7 — deposit asset checks and double deposit -/

set_option maxHeartbeats 2000000 in
/-- C7 (corrected): `deposit` succeeds only if the token account is owned by
the depositor, holds exactly the declared mint for `(party, slot_index)` in
quantity exactly 1, and the slot's deposited flag is still false; a second
deposit for the same (party, slot) always fails and leaves the record (and
the flag) unchanged, and it fails with the slot-already-deposited error
when the party's fully-deposited flag is not yet set — for a party that is
fully deposited, the coarse `AlreadyDeposited` guard fires first instead. -/
theorem deposit_asset_checks :
    (∀ (st : EscrowAccount) (inp : DepositInputs) (tok : Bool),
      (deposit st inp tok).res = none →
        inp.token_owner = inp.depositor ∧
          inp.token_mint = depositExpectedMint st inp ∧
          inp.token_amount = 1 ∧
          (if inp.is_initializer then st.initializer_nft_deposited.get inp.nft_index
            else st.taker_nft_deposited.get inp.nft_index) = false) ∧
    (∀ (st : EscrowAccount) (inp : DepositInputs) (tok : Bool),
      (if inp.is_initializer then st.initializer_nft_deposited.get inp.nft_index
        else st.taker_nft_deposited.get inp.nft_index) = true →
      (deposit st inp tok).res ≠ none ∧ (deposit st inp tok).escrow = st) ∧
    (∀ (st : EscrowAccount) (inp : DepositInputs) (tok : Bool),
      st.is_initialized = true →
      inp.depositor = (if inp.is_initializer then st.initializer else st.taker) →
      inp.token_owner = inp.depositor →
      inp.token_mint = inp.mint_key →
      (if inp.is_initializer then st.initializer_deposited
        else st.taker_deposited) = false →
      inp.nft_index < (if inp.is_initializer then st.initializer_nft_count
        else st.taker_nft_count) →
      inp.token_mint = depositExpectedMint st inp →
      inp.token_amount = 1 →
      (if inp.is_initializer then st.initializer_nft_deposited.get inp.nft_index
        else st.taker_nft_deposited.get inp.nft_index) = true →
      (deposit st inp tok).res = some (.program .NftAlreadyDeposited)) := by
  refine ⟨?_, ?_, ?_⟩
  · intro st inp tok hres
    have hc := (depositCheck_none_iff st inp).mp
      ((deposit_res_none_iff st inp tok).mp hres).1
    exact ⟨hc.2.2.2.2.1, hc.2.2.2.2.2.1, hc.2.2.2.2.2.2.1, hc.2.2.2.2.2.2.2.2⟩
  · intro st inp tok hflag
    have hne : (deposit st inp tok).res ≠ none := by
      intro hres
      have hc := (depositCheck_none_iff st inp).mp
        ((deposit_res_none_iff st inp tok).mp hres).1
      have := hc.2.2.2.2.2.2.2.2
      rw [hflag] at this
      exact Bool.noConfusion this
    exact ⟨hne, (deposit_err_frame st inp tok hne).1⟩
  · intro st inp tok h1 h2 h3 h4 h5 h6 h7 h8 h9
    have hck : depositCheck st inp = some .NftAlreadyDeposited := by
      unfold depositCheck depositExpectedMint at *
      by_cases hI : inp.is_initializer <;>
        simp only [hI, Bool.false_eq_true, Bool.true_eq_false, eq_self_iff_true,
          not_true, not_false_eq_true, not_true_eq_false, false_and, true_and,
          and_true, and_false, or_false, false_or, if_true, if_false, ite_true,
          ite_false] at h2 h5 h6 h7 h9 ⊢ <;>
        split_ifs <;> simp_all <;> omega
    simp [deposit, hck]

/-- C7 witness: the initializer's deposit into the fresh 2+1 record with the
declared mint in quantity 1 passes the asset checks; a repeated deposit for
the partially-deposited record's slot 0 fails with `NftAlreadyDeposited` and
changes nothing. -/
theorem deposit_asset_checks_wit :
    ((1 : PubKey) = 1 ∧
      (11 : PubKey) = depositExpectedMint exPartial ⟨true, 1, 1, 11, 1, 11, 1⟩ ∧
      (1 : Nat) = 1 ∧
      (if (true : Bool) then exPartial.initializer_nft_deposited.get 1
        else exPartial.taker_nft_deposited.get 1) = false) ∧
    ((deposit exPartial ⟨true, 0, 1, 10, 1, 10, 1⟩ true).res ≠ none ∧
      (deposit exPartial ⟨true, 0, 1, 10, 1, 10, 1⟩ true).escrow = exPartial) ∧
    (deposit exPartial ⟨true, 0, 1, 10, 1, 10, 1⟩ true).res =
      some (.program .NftAlreadyDeposited) :=
  ⟨deposit_asset_checks.1 exPartial ⟨true, 1, 1, 11, 1, 11, 1⟩ true (by decide),
    deposit_asset_checks.2.1 exPartial ⟨true, 0, 1, 10, 1, 10, 1⟩ true (by decide),
    deposit_asset_checks.2.2 exPartial ⟨true, 0, 1, 10, 1, 10, 1⟩ true (by decide)
      (by decide) (by decide) (by decide) (by decide) (by decide) (by decide)
      (by decide) (by decide)⟩

/-- C7 counterexample to the claim as stated: the single-slot initializer
side of `exDep1` is fully deposited, and a second deposit for the same
(party, slot) with perfectly matching asset accounts is rejected with the
coarse `AlreadyDeposited` error, not with the slot-already-deposited error;
the flag stays true and the record is unchanged. -/
theorem double_deposit_error_cex :
    exDep1.initializer_nft_deposited.get 0 = true ∧
      (deposit exDep1 ⟨true, 0, 1, 10, 1, 10, 1⟩ true).res =
        some (.program .AlreadyDeposited) ∧
      (deposit exDep1 ⟨true, 0, 1, 10, 1, 10, 1⟩ true).res ≠
        some (.program .NftAlreadyDeposited) ∧
      (deposit exDep1 ⟨true, 0, 1, 10, 1, 10, 1⟩ true).escrow = exDep1 ∧
      (deposit exDep1 ⟨true, 0, 1, 10, 1, 10, 1⟩ true).escrow.initializer_nft_deposited.get 0
        = true := by
  decide

/-! ### C8 — atomicity -/

/-- C8 (confirmed): every rejected call leaves the escrow record exactly as
it was and performs no token transfer, and every successful `deposit` or
`complete` performs its transfer — the translated control flow does all
checks before the transfer and mutates the record only after it. -/
theorem transitions_atomic :
    (∀ (st : EscrowAccount) (inp : DepositInputs) (tok : Bool),
      ((deposit st inp tok).res ≠ none →
        (deposit st inp tok).escrow = st ∧ (deposit st inp tok).transferred = false) ∧
      ((deposit st inp tok).res = none → (deposit st inp tok).transferred = true)) ∧
    (∀ (st : EscrowAccount) (inp : CompleteInputs) (tok : Bool),
      ((complete st inp tok).res ≠ none →
        (complete st inp tok).escrow = some st ∧
          (complete st inp tok).released = false) ∧
      ((complete st inp tok).res = none → (complete st inp tok).released = true)) ∧
    (∀ (st : EscrowAccount) (canceller : PubKey) (now : Int),
      (cancel st canceller now).res ≠ none →
        (cancel st canceller now).escrow = some st) := by
  refine ⟨?_, ?_, ?_⟩
  · intro st inp tok
    exact ⟨fun h => deposit_err_frame st inp tok h,
      fun h => (deposit_ok_shape st inp tok h).2⟩
  · intro st inp tok
    exact ⟨fun h => complete_err_frame st inp tok h,
      fun h => (complete_ok_shape st inp tok h).2⟩
  · intro st canceller now
    exact fun h => cancel_err_frame st canceller now h

/-- C8 witness: a deposit with the wrong mint is rejected with no state
change and no transfer; the matching deposit performs its transfer; a
blocked cancel leaves the record in place. -/
theorem transitions_atomic_wit :
    ((deposit exPartial ⟨true, 1, 1, 99, 1, 99, 1⟩ true).escrow = exPartial ∧
      (deposit exPartial ⟨true, 1, 1, 99, 1, 99, 1⟩ true).transferred = false) ∧
    (deposit exPartial ⟨true, 1, 1, 11, 1, 11, 1⟩ true).transferred = true ∧
    (cancel exRdy 1 100000).escrow = some exRdy :=
  ⟨(transitions_atomic.1 exPartial ⟨true, 1, 1, 99, 1, 99, 1⟩ true).1 (by decide),
    (transitions_atomic.1 exPartial ⟨true, 1, 1, 11, 1, 11, 1⟩ true).2 (by decide),
    transitions_atomic.2.2 exRdy 1 100000 (by decide)⟩

/-! ### C9, C10 — initialization -/

theorem storeMints_get (mintAt : Nat → PubKey) (start count i : Nat)
    (h1 : i < count) (h2 : count ≤ 3) :
    (storeMints mintAt start count).get i = mintAt (start + i) := by
  rcases i with _ | _ | _ | i
  · have hc : 0 < count := by omega
    simp [storeMints, Mints3.get, hc]
  · have hc : 1 < count := by omega
    simp [storeMints, Mints3.get, hc]
  · have hc : 2 < count := by omega
    simp [storeMints, Mints3.get, hc]
  · omega

/-- C9 (confirmed): `initialize` rejects with `InvalidNftCount` whenever one
of the two declared counts is outside [1,3]; with both counts in range it
creates the record with every bookkeeping flag cleared, the declared mints
stored in order (party A's mints first, then party B's), `created_at`
stamped with the clock, `timeout_in_seconds` = 86400, and
`is_initialized` = true. -/
theorem initializeEscrow_spec (a b ic tc bump : Nat) (mintAt : Nat → PubKey)
    (now : Int) :
    ((¬ (0 < ic ∧ ic ≤ 3) ∨ ¬ (0 < tc ∧ tc ≤ 3)) →
      initializeEscrow a b ic tc bump mintAt now = .error .InvalidNftCount) ∧
    (0 < ic → ic ≤ 3 → 0 < tc → tc ≤ 3 →
      ∃ st, initializeEscrow a b ic tc bump mintAt now = .ok st ∧
        st.initializer = a ∧ st.taker = b ∧
        st.initializer_nft_count = ic ∧ st.taker_nft_count = tc ∧
        st.is_initialized = true ∧ st.created_at = now ∧
        st.timeout_in_seconds = 86400 ∧ st.bump = bump ∧
        st.initializer_nft_deposited = Flags3.zero ∧
        st.taker_nft_deposited = Flags3.zero ∧
        st.initializer_nft_collected = Flags3.zero ∧
        st.taker_nft_collected = Flags3.zero ∧
        st.initializer_deposited = false ∧ st.taker_deposited = false ∧
        st.initializer_collected = false ∧ st.taker_collected = false ∧
        (∀ i, i < ic → st.initializer_nft_mints.get i = mintAt i) ∧
        (∀ i, i < tc → st.taker_nft_mints.get i = mintAt (ic + i))) := by
  constructor
  · intro h
    unfold initializeEscrow
    rcases h with h | h
    · rw [if_pos h]
    · split_ifs with h1
      · rfl
      · rfl
  · intro h1 h2 h3 h4
    unfold initializeEscrow
    rw [if_neg (not_not_intro ⟨h1, h2⟩), if_neg (not_not_intro ⟨h3, h4⟩)]
    refine ⟨_, rfl, rfl, rfl, rfl, rfl, rfl, rfl, rfl, rfl, rfl, rfl, rfl, rfl,
      rfl, rfl, rfl, rfl, ?_, ?_⟩
    · intro i hi
      have := storeMints_get mintAt 0 ic i hi h2
      simpa using this
    · intro i hi
      exact storeMints_get mintAt ic tc i hi h4

/-- C9 witness: count 0 is rejected; counts (2,1) produce the fully zeroed,
stamped record with the mints stored in order. -/
theorem initializeEscrow_spec_wit :
    initializeEscrow 1 2 0 1 255 (fun i => 10 + i) 1000 = .error .InvalidNftCount ∧
      ∃ st, initializeEscrow 1 2 2 1 255 (fun i => 10 + i) 1000 = .ok st ∧
        st.initializer = 1 ∧ st.taker = 2 ∧
        st.initializer_nft_count = 2 ∧ st.taker_nft_count = 1 ∧
        st.is_initialized = true ∧ st.created_at = 1000 ∧
        st.timeout_in_seconds = 86400 ∧ st.bump = 255 ∧
        st.initializer_nft_deposited = Flags3.zero ∧
        st.taker_nft_deposited = Flags3.zero ∧
        st.initializer_nft_collected = Flags3.zero ∧
        st.taker_nft_collected = Flags3.zero ∧
        st.initializer_deposited = false ∧ st.taker_deposited = false ∧
        st.initializer_collected = false ∧ st.taker_collected = false ∧
        (∀ i, i < 2 → st.initializer_nft_mints.get i = 10 + i) ∧
        (∀ i, i < 1 → st.taker_nft_mints.get i = 10 + (2 + i)) :=
  ⟨(initializeEscrow_spec 1 2 0 1 255 (fun i => 10 + i) 1000).1
      (Or.inl (by decide)),
    (initializeEscrow_spec 1 2 2 1 255 (fun i => 10 + i) 1000).2
      (by decide) (by decide) (by decide) (by decide)⟩

/-- C10 (confirmed): `initialize` never compares the two party identities;
with both counts in range it succeeds even when `party_a_id = party_b_id`,
creating a record in which both roles are held by the same identity. -/
theorem initializeEscrow_same_party (a ic tc bump : Nat) (mintAt : Nat → PubKey)
    (now : Int) (h1 : 0 < ic) (h2 : ic ≤ 3) (h3 : 0 < tc) (h4 : tc ≤ 3) :
    ∃ st, initializeEscrow a a ic tc bump mintAt now = .ok st ∧
      st.initializer = a ∧ st.taker = a ∧ st.is_initialized = true := by
  unfold initializeEscrow
  rw [if_neg (not_not_intro ⟨h1, h2⟩), if_neg (not_not_intro ⟨h3, h4⟩)]
  exact ⟨_, rfl, rfl, rfl, rfl⟩

/-- C10 witness: identity 7 on both sides with counts (1,1). -/
theorem initializeEscrow_same_party_wit :
    ∃ st, initializeEscrow 7 7 1 1 255 (fun i => 30 + i) 0 = .ok st ∧
      st.initializer = 7 ∧ st.taker = 7 ∧ st.is_initialized = true :=
  initializeEscrow_same_party 7 1 1 255 (fun i => 30 + i) 0
    (by decide) (by decide) (by decide) (by decide)
